import Mathlib

/-!
Verification of `src/reinforce/config.py`: the REINFORCE training
configuration record, the GPU-tier configuration selector
(`get_config_for_gpu`), the reward-mode selector (`get_reward_mode`)
and the checkpoint locator (`get_latest_checkpoint`).

Modelling decisions:
* Python floats are embedded as rationals (`ℚ`); the thresholds and
  divisions appearing in the code (`total_memory / 1e9`, `>= 70`,
  `>= 20`) are exact at every value the claims mention.
* The mutable module-level `REINFORCE_CONFIG` singleton is embedded by
  explicit state passing: `get_config_for_gpu` takes the current
  configuration value and returns the updated one.
* The accelerator query (`torch.cuda.is_available()`,
  `torch.cuda.get_device_properties(0).total_memory`) is embedded as an
  explicit `Accel` environment value.
* The filesystem consulted by `get_latest_checkpoint` is embedded as a
  `DirListing`: whether the path exists, and the ordered entries of
  `os.listdir` together with their `os.path.isdir` status.
-/

namespace Reinforce

/-- The `REINFORCEConfig` dataclass, field for field.  Python `float`
fields are `ℚ`; `project_kwargs : Optional[dict]` is an optional
association list.  Defaults are the dataclass defaults. -/
structure REINFORCEConfig where
  learning_rate : ℚ := 3 / 10000
  batch_size : ℤ := 1
  mini_batch_size : ℤ := 1
  gradient_accumulation_steps : ℤ := 1
  seed : ℤ := 42
  max_grad_norm : ℚ := 1
  exp_name : String := "spillover"
  log_with : String := "wandb"
  project_kwargs : Option (List (String × String)) := none
  tracker_project_name : String := "trl"
  steps : ℤ := 100
  logging_steps : ℤ := 1
  save_steps : ℤ := 5
  warmup_steps : ℤ := 5
  rollout_save_steps : ℤ := 5
  weight_decay : ℚ := 1 / 100
  lr_scheduler_type : String := "cosine"
  num_train_epochs : ℤ := 1
  per_device_train_batch_size : ℤ := 64
  gradient_checkpointing : Bool := true
  fp16 : Bool := true
  bf16 : Bool := false
  resume_from_checkpoint : Bool := false
  checkpoint_dir : String := "./reinforce_output"
  reward_fn_name : String := "reasoning_gym"
  use_kl_penalty : Bool := true
  kl_beta : ℚ := 1 / 10
  use_advantage : Bool := true
  zero_thinking_gradients : Bool := true
  deriving Repr, DecidableEq

/-- Embedding of `REINFORCEConfig.__post_init__`: replace a `None` `project_kwargs`
with an empty dict.  Run on every constructed instance. -/
def REINFORCEConfig.post_init (c : REINFORCEConfig) : REINFORCEConfig :=
  if c.project_kwargs = none then { c with project_kwargs := some [] } else c

/-- The module-level `REINFORCE_CONFIG = REINFORCEConfig()` singleton:
all defaults, then `__post_init__`. -/
def REINFORCE_CONFIG : REINFORCEConfig := REINFORCEConfig.post_init {}

/-- The `INFERENCE_CONFIG` dict (the fields `get_reward_mode` can read).
The dict is mutable at runtime, so functions reading it are embedded as
functions of the current dict value. -/
structure InferenceConfig where
  max_new_tokens : ℤ := 128
  min_new_tokens : ℤ := 0
  temperature : ℚ := 7 / 10
  top_p : ℚ := 1
  top_k : ℤ := 0
  do_sample : Bool := true
  enable_thinking : Bool := true
  max_thinking_tokens : ℤ := 64
  min_thinking_tokens : ℤ := 0
  use_thinking_processor : Bool := true
  deriving Repr, DecidableEq

/-- The module-level `INFERENCE_CONFIG` literal. -/
def INFERENCE_CONFIG : InferenceConfig := {}

/-- The `A100_CONFIG` dict of tier overrides. -/
structure GpuProfile where
  per_device_train_batch_size : ℤ
  mini_batch_size : ℤ
  gradient_accumulation_steps : ℤ
  gradient_checkpointing : Bool
  fp16 : Bool
  bf16 : Bool
  deriving Repr, DecidableEq

/-- The `A100_CONFIG` literal from the source. -/
def A100_CONFIG : GpuProfile :=
  { per_device_train_batch_size := 4
    mini_batch_size := 4
    gradient_accumulation_steps := 2
    gradient_checkpointing := true
    fp16 := false
    bf16 := true }

/-- Python `str.lower()`, as the character-wise lowercasing map (the
source only ever compares the lowered tier string against the ASCII
literals `"a100"` and `"auto"`). -/
def pyLower (s : String) : String := ⟨s.data.map Char.toLower⟩

/-- The accelerator environment read by the `"auto"` branch:
`torch.cuda.is_available()` and
`torch.cuda.get_device_properties(0).total_memory` (bytes). -/
structure Accel where
  available : Bool
  total_memory : ℚ
  deriving Repr, DecidableEq

/-- Embedding of `get_config_for_gpu`.  The shared mutable `REINFORCE_CONFIG` is
passed and returned explicitly; the accelerator query is the `accel`
argument.  Mirrors the source branch for branch, including the
`memory_gb = total_memory / 1e9` conversion. -/
def get_config_for_gpu (gpu_type : String) (accel : Accel)
    (config : REINFORCEConfig) : REINFORCEConfig :=
  if pyLower gpu_type = "a100" then
    { config with
      per_device_train_batch_size := A100_CONFIG.per_device_train_batch_size
      mini_batch_size := A100_CONFIG.mini_batch_size
      gradient_accumulation_steps := A100_CONFIG.gradient_accumulation_steps
      gradient_checkpointing := A100_CONFIG.gradient_checkpointing
      fp16 := A100_CONFIG.fp16
      bf16 := A100_CONFIG.bf16 }
  else if pyLower gpu_type = "auto" then
    if accel.available then
      let memory_gb : ℚ := accel.total_memory / 1000000000
      if memory_gb ≥ 70 then
        { config with
          per_device_train_batch_size := A100_CONFIG.per_device_train_batch_size
          mini_batch_size := A100_CONFIG.mini_batch_size
          gradient_accumulation_steps := A100_CONFIG.gradient_accumulation_steps
          gradient_checkpointing := A100_CONFIG.gradient_checkpointing
          fp16 := A100_CONFIG.fp16
          bf16 := A100_CONFIG.bf16 }
      else if memory_gb ≥ 20 then
        { config with
          per_device_train_batch_size := 4
          mini_batch_size := 1
          gradient_accumulation_steps := 4
          gradient_checkpointing := true
          fp16 := false
          bf16 := true }
      else
        { config with
          per_device_train_batch_size := 2
          mini_batch_size := 1
          gradient_accumulation_steps := 8
          gradient_checkpointing := true
          fp16 := false
          bf16 := true }
    else
      config
  else
    config

/-- Embedding of `get_reward_mode`, as a function of the current `INFERENCE_CONFIG`
dict value it reads. -/
def get_reward_mode (inference : InferenceConfig) : String :=
  if inference.enable_thinking then "thinking_only" else "all_tokens"

/-! ## Checkpoint locator -/

/-- One entry of `os.listdir(checkpoint_dir)` together with the result
of `os.path.isdir` on its joined path. -/
structure DirEntry where
  name : String
  isDir : Bool
  deriving Repr, DecidableEq

/-- The filesystem state `get_latest_checkpoint` consults: whether
`checkpoint_dir` exists, and its listing in `os.listdir` order. -/
structure DirListing where
  pathExists : Bool
  entries : List DirEntry
  deriving Repr, DecidableEq

/-- Embedding of `os.path.join(checkpoint_dir, item)` for the relative names
produced by `os.listdir`. -/
def joinPath (dir item : String) : String := dir ++ "/" ++ item

/-- Value of the decimal digit string `ds` (most significant first). -/
def digitsToNat (ds : List Char) : Nat :=
  ds.foldl (fun n c => n * 10 + (c.toNat - ('0').toNat)) 0

/-- Embedding of the regex step, matching the compiled pattern at the start of the name followed by
`int(match.group(1))`: succeed iff the name starts with
`checkpoint-` followed by at least one digit; the captured group is the
maximal digit run there (`\d+` is greedy).  Trailing characters are
tolerated because `match` anchors only at the start. -/
def matchCheckpointStep (item : String) : Option Nat :=
  let lit := ("checkpoint-").data
  let cs := item.data
  if lit.isPrefixOf cs then
    let rest := cs.drop lit.length
    let digits := rest.takeWhile Char.isDigit
    if digits.isEmpty then none else some (digitsToNat digits)
  else none

/-- The `checkpoints` list built by the loop body: a directory entry
contributes `(step, joined path)` exactly when it is a directory and
its name matches the pattern, in listing order. -/
def collectCheckpoints (dir : String) (entries : List DirEntry) :
    List (Nat × String) :=
  entries.filterMap fun e =>
    if e.isDir then
      (matchCheckpointStep e.name).map fun s => (s, joinPath dir e.name)
    else none

/-- Python `max(checkpoints, key=lambda x: x[0])` on a nonempty list:
keep the current maximum, replacing only on a strictly larger key, so
the first maximum wins ties. -/
def pickMaxByStep (x : Nat × String) (xs : List (Nat × String)) :
    Nat × String :=
  xs.foldl (fun best y => if y.1 > best.1 then y else best) x

/-- Embedding of `get_latest_checkpoint`, over the explicit filesystem state. -/
def get_latest_checkpoint (fs : DirListing) (checkpoint_dir : String) :
    Option String :=
  if fs.pathExists then
    match collectCheckpoints checkpoint_dir fs.entries with
    | [] => none
    | x :: xs => some (pickMaxByStep x xs).2
  else none

/-! ## Theorems: GPU-tier selector and configuration record -/

/-- C9: `__post_init__` guarantees `project_kwargs` is never `None` on a
constructed `REINFORCEConfig`: whatever the field held before the
post-construction step, afterwards it holds a dict. -/
theorem claim_C9_project_kwargs_always_some (c : REINFORCEConfig) :
    ((REINFORCEConfig.post_init c).project_kwargs).isSome = true := by
  unfold REINFORCEConfig.post_init
  by_cases h : c.project_kwargs = none
  · simp [h]
  · simpa [h] using Option.isSome_iff_ne_none.mpr h

/-- C10: `get_reward_mode` returns `"thinking_only"` exactly when the
`enable_thinking` entry of the inference configuration is true,
`"all_tokens"` otherwise, and never anything else; on the module-level
`INFERENCE_CONFIG` (where `enable_thinking` is true) it returns
`"thinking_only"`. -/
theorem claim_C10_reward_mode (inference : InferenceConfig) :
    (inference.enable_thinking = true → get_reward_mode inference = "thinking_only") ∧
    (inference.enable_thinking = false → get_reward_mode inference = "all_tokens") ∧
    (get_reward_mode inference = "thinking_only" ∨
      get_reward_mode inference = "all_tokens") ∧
    get_reward_mode INFERENCE_CONFIG = "thinking_only" := by
  unfold get_reward_mode
  refine ⟨fun h => by simp [h], fun h => by simp [h], ?_, by decide⟩
  by_cases h : inference.enable_thinking <;> simp [h]

/-- C10 witness: both branches exercised at concrete inference
configurations. -/
theorem claim_C10_reward_mode_witness :
    get_reward_mode INFERENCE_CONFIG = "thinking_only" ∧
    get_reward_mode { INFERENCE_CONFIG with enable_thinking := false } = "all_tokens" :=
  ⟨(claim_C10_reward_mode INFERENCE_CONFIG).1 rfl,
   (claim_C10_reward_mode { INFERENCE_CONFIG with enable_thinking := false }).2.1 rfl⟩

/-- C2: with a tier string equal to "a100" case-insensitively,
`get_config_for_gpu` applies the A100 profile to the six governed
fields, whatever the prior configuration state. -/
theorem claim_C2_a100_profile (tier : String) (accel : Accel)
    (cfg : REINFORCEConfig) (h : pyLower tier = "a100") :
    (get_config_for_gpu tier accel cfg).per_device_train_batch_size = 4 ∧
    (get_config_for_gpu tier accel cfg).mini_batch_size = 4 ∧
    (get_config_for_gpu tier accel cfg).gradient_accumulation_steps = 2 ∧
    (get_config_for_gpu tier accel cfg).gradient_checkpointing = true ∧
    (get_config_for_gpu tier accel cfg).fp16 = false ∧
    (get_config_for_gpu tier accel cfg).bf16 = true := by
  simp [get_config_for_gpu, h, A100_CONFIG]

/-- C2 witness: mixed-case tier "A100" at a non-default starting
configuration. -/
theorem claim_C2_a100_profile_witness :
    (get_config_for_gpu "A100" ⟨false, 0⟩ { mini_batch_size := 9, bf16 := false }).per_device_train_batch_size = 4 ∧
    (get_config_for_gpu "A100" ⟨false, 0⟩ { mini_batch_size := 9, bf16 := false }).mini_batch_size = 4 ∧
    (get_config_for_gpu "A100" ⟨false, 0⟩ { mini_batch_size := 9, bf16 := false }).gradient_accumulation_steps = 2 ∧
    (get_config_for_gpu "A100" ⟨false, 0⟩ { mini_batch_size := 9, bf16 := false }).gradient_checkpointing = true ∧
    (get_config_for_gpu "A100" ⟨false, 0⟩ { mini_batch_size := 9, bf16 := false }).fp16 = false ∧
    (get_config_for_gpu "A100" ⟨false, 0⟩ { mini_batch_size := 9, bf16 := false }).bf16 = true :=
  claim_C2_a100_profile "A100" ⟨false, 0⟩ { mini_batch_size := 9, bf16 := false } (by decide)

/-- C3: with tier "auto" and an available accelerator, the profile is
chosen by the detected memory in GB (`total_memory / 1e9`): at least 70
applies the A100 profile, between 20 and 70 the mid-tier profile, and
below 20 the low-tier profile. -/
theorem claim_C3_auto_memory_tiers (accel : Accel) (cfg : REINFORCEConfig)
    (hav : accel.available = true) :
    (70 ≤ accel.total_memory / 1000000000 →
      (get_config_for_gpu "auto" accel cfg).per_device_train_batch_size = 4 ∧
      (get_config_for_gpu "auto" accel cfg).mini_batch_size = 4 ∧
      (get_config_for_gpu "auto" accel cfg).gradient_accumulation_steps = 2 ∧
      (get_config_for_gpu "auto" accel cfg).gradient_checkpointing = true ∧
      (get_config_for_gpu "auto" accel cfg).fp16 = false ∧
      (get_config_for_gpu "auto" accel cfg).bf16 = true) ∧
    (20 ≤ accel.total_memory / 1000000000 →
      accel.total_memory / 1000000000 < 70 →
      (get_config_for_gpu "auto" accel cfg).per_device_train_batch_size = 4 ∧
      (get_config_for_gpu "auto" accel cfg).mini_batch_size = 1 ∧
      (get_config_for_gpu "auto" accel cfg).gradient_accumulation_steps = 4 ∧
      (get_config_for_gpu "auto" accel cfg).gradient_checkpointing = true ∧
      (get_config_for_gpu "auto" accel cfg).fp16 = false ∧
      (get_config_for_gpu "auto" accel cfg).bf16 = true) ∧
    (accel.total_memory / 1000000000 < 20 →
      (get_config_for_gpu "auto" accel cfg).per_device_train_batch_size = 2 ∧
      (get_config_for_gpu "auto" accel cfg).mini_batch_size = 1 ∧
      (get_config_for_gpu "auto" accel cfg).gradient_accumulation_steps = 8 ∧
      (get_config_for_gpu "auto" accel cfg).gradient_checkpointing = true ∧
      (get_config_for_gpu "auto" accel cfg).fp16 = false ∧
      (get_config_for_gpu "auto" accel cfg).bf16 = true) := by
  have ha : pyLower "auto" = "auto" := by decide
  have hb : pyLower "auto" ≠ "a100" := by decide
  refine ⟨fun h70 => ?_, fun h20 h70 => ?_, fun h20 => ?_⟩
  · simp [get_config_for_gpu, ha, hb, hav, A100_CONFIG, ge_iff_le, h70]
  · simp [get_config_for_gpu, ha, hb, hav, ge_iff_le, h20, not_le.mpr h70]
  · have h70 : ¬ (70 ≤ accel.total_memory / 1000000000) :=
      not_le.mpr (lt_trans h20 (by norm_num))
    simp [get_config_for_gpu, ha, hb, hav, ge_iff_le, h70, not_le.mpr h20]

/-- C3 witness: all three memory tiers exercised at concrete byte
counts (80 GB, 30 GB, 10 GB). -/
theorem claim_C3_auto_memory_tiers_witness :
    ((get_config_for_gpu "auto" ⟨true, 80000000000⟩ {}).gradient_accumulation_steps = 2 ∧
      (get_config_for_gpu "auto" ⟨true, 80000000000⟩ {}).mini_batch_size = 4) ∧
    ((get_config_for_gpu "auto" ⟨true, 30000000000⟩ {}).gradient_accumulation_steps = 4 ∧
      (get_config_for_gpu "auto" ⟨true, 30000000000⟩ {}).mini_batch_size = 1) ∧
    ((get_config_for_gpu "auto" ⟨true, 10000000000⟩ {}).gradient_accumulation_steps = 8 ∧
      (get_config_for_gpu "auto" ⟨true, 10000000000⟩ {}).per_device_train_batch_size = 2) :=
  ⟨⟨((claim_C3_auto_memory_tiers ⟨true, 80000000000⟩ {} rfl).1 (by norm_num)).2.2.1,
    ((claim_C3_auto_memory_tiers ⟨true, 80000000000⟩ {} rfl).1 (by norm_num)).2.1⟩,
   ⟨((claim_C3_auto_memory_tiers ⟨true, 30000000000⟩ {} rfl).2.1 (by norm_num) (by norm_num)).2.2.1,
    ((claim_C3_auto_memory_tiers ⟨true, 30000000000⟩ {} rfl).2.1 (by norm_num) (by norm_num)).2.1⟩,
   ⟨((claim_C3_auto_memory_tiers ⟨true, 10000000000⟩ {} rfl).2.2 (by norm_num)).2.2.1,
    ((claim_C3_auto_memory_tiers ⟨true, 10000000000⟩ {} rfl).2.2 (by norm_num)).1⟩⟩

/-- C6: a tier string that lowercases to neither "a100" nor "auto"
applies no override, and tier "auto" without an available accelerator
applies no override: the configuration comes back unchanged in every
field, with no error path. -/
theorem claim_C6_no_override (tier : String) (accel : Accel)
    (cfg : REINFORCEConfig) :
    (pyLower tier ≠ "a100" → pyLower tier ≠ "auto" →
      get_config_for_gpu tier accel cfg = cfg) ∧
    (pyLower tier = "auto" → accel.available = false →
      get_config_for_gpu tier accel cfg = cfg) := by
  constructor
  · intro h1 h2
    simp [get_config_for_gpu, h1, h2]
  · intro h1 h2
    have h0 : pyLower tier ≠ "a100" := by simp [h1]
    simp [get_config_for_gpu, h0, h1, h2]

/-- C6 witness: the unrecognized tier "tpu-v4" and tier "auto" with no
accelerator, both at a concrete configuration. -/
theorem claim_C6_no_override_witness :
    get_config_for_gpu "tpu-v4" ⟨true, 80000000000⟩ { seed := 7 } = { seed := 7 } ∧
    get_config_for_gpu "auto" ⟨false, 80000000000⟩ { seed := 7 } = { seed := 7 } :=
  ⟨(claim_C6_no_override "tpu-v4" ⟨true, 80000000000⟩ { seed := 7 }).1
      (by decide) (by decide),
   (claim_C6_no_override "auto" ⟨false, 80000000000⟩ { seed := 7 }).2
      (by decide) rfl⟩

/-- C7: for every tier, accelerator state and starting configuration,
`get_config_for_gpu` leaves every field other than the six
batch/precision fields exactly as it was. -/
theorem claim_C7_frame (tier : String) (accel : Accel)
    (cfg : REINFORCEConfig) :
    (get_config_for_gpu tier accel cfg).learning_rate = cfg.learning_rate ∧
    (get_config_for_gpu tier accel cfg).batch_size = cfg.batch_size ∧
    (get_config_for_gpu tier accel cfg).seed = cfg.seed ∧
    (get_config_for_gpu tier accel cfg).max_grad_norm = cfg.max_grad_norm ∧
    (get_config_for_gpu tier accel cfg).exp_name = cfg.exp_name ∧
    (get_config_for_gpu tier accel cfg).log_with = cfg.log_with ∧
    (get_config_for_gpu tier accel cfg).project_kwargs = cfg.project_kwargs ∧
    (get_config_for_gpu tier accel cfg).tracker_project_name = cfg.tracker_project_name ∧
    (get_config_for_gpu tier accel cfg).steps = cfg.steps ∧
    (get_config_for_gpu tier accel cfg).logging_steps = cfg.logging_steps ∧
    (get_config_for_gpu tier accel cfg).save_steps = cfg.save_steps ∧
    (get_config_for_gpu tier accel cfg).warmup_steps = cfg.warmup_steps ∧
    (get_config_for_gpu tier accel cfg).rollout_save_steps = cfg.rollout_save_steps ∧
    (get_config_for_gpu tier accel cfg).weight_decay = cfg.weight_decay ∧
    (get_config_for_gpu tier accel cfg).lr_scheduler_type = cfg.lr_scheduler_type ∧
    (get_config_for_gpu tier accel cfg).num_train_epochs = cfg.num_train_epochs ∧
    (get_config_for_gpu tier accel cfg).resume_from_checkpoint = cfg.resume_from_checkpoint ∧
    (get_config_for_gpu tier accel cfg).checkpoint_dir = cfg.checkpoint_dir ∧
    (get_config_for_gpu tier accel cfg).reward_fn_name = cfg.reward_fn_name ∧
    (get_config_for_gpu tier accel cfg).use_kl_penalty = cfg.use_kl_penalty ∧
    (get_config_for_gpu tier accel cfg).kl_beta = cfg.kl_beta ∧
    (get_config_for_gpu tier accel cfg).use_advantage = cfg.use_advantage ∧
    (get_config_for_gpu tier accel cfg).zero_thinking_gradients = cfg.zero_thinking_gradients := by
  simp only [get_config_for_gpu]
  split_ifs <;>
    exact ⟨rfl, rfl, rfl, rfl, rfl, rfl, rfl, rfl, rfl, rfl, rfl, rfl,
      rfl, rfl, rfl, rfl, rfl, rfl, rfl, rfl, rfl, rfl, rfl⟩

/-- C8: tier selection is idempotent: a second call with the same tier
under the same accelerator conditions changes nothing. -/
theorem claim_C8_idempotent (tier : String) (accel : Accel)
    (cfg : REINFORCEConfig) :
    get_config_for_gpu tier accel (get_config_for_gpu tier accel cfg) =
      get_config_for_gpu tier accel cfg := by
  simp only [get_config_for_gpu]
  split_ifs <;> rfl

/-! ## Theorems: checkpoint locator -/

/-- The fold implementing Python `max(..., key=lambda x: x[0])` returns
a member of `x :: xs` whose step bounds every step in the list. -/
theorem pickMaxByStep_spec :
    ∀ (xs : List (Nat × String)) (x : Nat × String),
      pickMaxByStep x xs ∈ x :: xs ∧
        ∀ q ∈ x :: xs, q.1 ≤ (pickMaxByStep x xs).1 := by
  intro xs
  induction xs with
  | nil =>
    intro x
    refine ⟨List.mem_cons_self x [], ?_⟩
    intro q hq
    rcases List.mem_cons.mp hq with h | h
    · subst h; exact Nat.le.refl
    · exact absurd h (List.not_mem_nil q)
  | cons y ys ih =>
    intro x
    obtain ⟨hmem, hle⟩ := ih (if y.1 > x.1 then y else x)
    have hx : x.1 ≤ (if y.1 > x.1 then y else x).1 := by
      by_cases hc : y.1 > x.1
      · simp only [if_pos hc]; exact Nat.le_of_lt hc
      · simp only [if_neg hc]; exact Nat.le.refl
    have hy : y.1 ≤ (if y.1 > x.1 then y else x).1 := by
      by_cases hc : y.1 > x.1
      · simp only [if_pos hc]; exact Nat.le.refl
      · simp only [if_neg hc]; exact Nat.le_of_not_lt hc
    have hres : pickMaxByStep x (y :: ys) =
        pickMaxByStep (if y.1 > x.1 then y else x) ys := rfl
    constructor
    · rw [hres]
      rcases List.mem_cons.mp hmem with h | h
      · rw [h]
        by_cases hc : y.1 > x.1
        · simp only [if_pos hc]
          exact List.mem_cons_of_mem x (List.mem_cons_self y ys)
        · simp only [if_neg hc]
          exact List.mem_cons_self x (y :: ys)
      · exact List.mem_cons_of_mem x (List.mem_cons_of_mem y h)
    · intro q hq
      rw [hres]
      have hzle : (if y.1 > x.1 then y else x).1 ≤
          (pickMaxByStep (if y.1 > x.1 then y else x) ys).1 :=
        hle _ (List.mem_cons_self _ ys)
      rcases List.mem_cons.mp hq with h | h
      · rw [h]; exact le_trans hx hzle
      · rcases List.mem_cons.mp h with h2 | h2
        · rw [h2]; exact le_trans hy hzle
        · exact hle q (List.mem_cons_of_mem _ h2)

/-- C5: the locator returns `none` without raising both when the path
does not exist and when the path exists but no entry is a directory
whose name matches the checkpoint pattern. -/
theorem claim_C5_not_found (fs : DirListing) (dir : String) :
    (fs.pathExists = false → get_latest_checkpoint fs dir = none) ∧
    (fs.pathExists = true →
      (∀ e ∈ fs.entries, e.isDir = false ∨ matchCheckpointStep e.name = none) →
      get_latest_checkpoint fs dir = none) := by
  constructor
  · intro h
    simp [get_latest_checkpoint, h]
  · intro hex hnone
    have hcol : collectCheckpoints dir fs.entries = [] := by
      simp only [collectCheckpoints]
      apply List.filterMap_eq_nil_iff.mpr
      intro e he
      rcases hnone e he with h | h
      · simp [h]
      · simp [h]
    simp [get_latest_checkpoint, hex, hcol]

/-- C5 witness: a nonexistent path and an existing directory whose
entries are a non-matching directory and a matching non-directory. -/
theorem claim_C5_not_found_witness :
    get_latest_checkpoint ⟨false, [⟨"checkpoint-3", true⟩]⟩ "d" = none ∧
    get_latest_checkpoint ⟨true, [⟨"foo", true⟩, ⟨"checkpoint-7", false⟩]⟩ "d" = none :=
  ⟨(claim_C5_not_found ⟨false, [⟨"checkpoint-3", true⟩]⟩ "d").1 rfl,
   (claim_C5_not_found ⟨true, [⟨"foo", true⟩, ⟨"checkpoint-7", false⟩]⟩ "d").2 rfl
     (by decide)⟩

/-- C1: on an existing directory whose matching-subdirectory list is
non-empty, the locator returns the full path of a matching pair whose
step number is maximal among all matching pairs. -/
theorem claim_C1_latest_checkpoint_max (fs : DirListing) (dir : String)
    (hex : fs.pathExists = true)
    (hne : collectCheckpoints dir fs.entries ≠ []) :
    ∃ p ∈ collectCheckpoints dir fs.entries,
      get_latest_checkpoint fs dir = some p.2 ∧
      ∀ q ∈ collectCheckpoints dir fs.entries, q.1 ≤ p.1 := by
  cases hcol : collectCheckpoints dir fs.entries with
  | nil => exact absurd hcol hne
  | cons x xs =>
    obtain ⟨hmem, hle⟩ := pickMaxByStep_spec xs x
    refine ⟨pickMaxByStep x xs, hmem, ?_, hle⟩
    simp [get_latest_checkpoint, hex, hcol]

/-- C1 witness: the concrete directory from the specification with entries
checkpoint-3, checkpoint-10, checkpoint-2 yields checkpoint-10, both by
direct evaluation and through the general theorem. -/
theorem claim_C1_latest_checkpoint_max_witness :
    get_latest_checkpoint
      ⟨true, [⟨"checkpoint-3", true⟩, ⟨"checkpoint-10", true⟩, ⟨"checkpoint-2", true⟩]⟩
      "out" = some "out/checkpoint-10" ∧
    ∃ p ∈ collectCheckpoints "out"
        [⟨"checkpoint-3", true⟩, ⟨"checkpoint-10", true⟩, ⟨"checkpoint-2", true⟩],
      get_latest_checkpoint
        ⟨true, [⟨"checkpoint-3", true⟩, ⟨"checkpoint-10", true⟩, ⟨"checkpoint-2", true⟩]⟩
        "out" = some p.2 ∧
      ∀ q ∈ collectCheckpoints "out"
          [⟨"checkpoint-3", true⟩, ⟨"checkpoint-10", true⟩, ⟨"checkpoint-2", true⟩],
        q.1 ≤ p.1 :=
  ⟨by decide,
   claim_C1_latest_checkpoint_max
     ⟨true, [⟨"checkpoint-3", true⟩, ⟨"checkpoint-10", true⟩, ⟨"checkpoint-2", true⟩]⟩
     "out" rfl (by decide)⟩

/-- Every head of a `dropWhile` residue fails the predicate. -/
theorem dropWhile_head_not (p : Char → Bool) :
    ∀ (l : List Char) (c : Char), (l.dropWhile p).head? = some c → p c = false := by
  intro l
  induction l with
  | nil => intro c h; simp at h
  | cons a as ih =>
    intro c h
    rw [List.dropWhile_cons] at h
    by_cases hp : p a = true
    · rw [if_pos hp] at h
      exact ih c h
    · rw [if_neg hp] at h
      have hac : a = c := by simpa using h
      subst hac
      exact Bool.eq_false_iff.mpr hp

/-- The `takeWhile` of an append recovers exactly the left block when the block
satisfies the predicate throughout and the remainder starts with a
failing character (or is empty). -/
theorem takeWhile_append_block (p : Char → Bool) :
    ∀ (ds rest : List Char), (∀ c ∈ ds, p c = true) →
      (∀ c, rest.head? = some c → p c = false) →
      (ds ++ rest).takeWhile p = ds := by
  intro ds
  induction ds with
  | nil =>
    intro rest _ hrest
    cases rest with
    | nil => simp
    | cons r rs =>
      have hr : p r = false := hrest r rfl
      simp [List.takeWhile_cons, hr]
  | cons d dsx ih =>
    intro rest hds hrest
    have hd : p d = true := hds d (List.mem_cons_self d dsx)
    simp only [List.cons_append, List.takeWhile_cons, hd, if_true]
    rw [ih rest (fun c hc => hds c (List.mem_cons_of_mem d hc)) hrest]

/-- C4: a listing entry contributes a (step, path) pair exactly when it
is a directory whose name starts with `checkpoint-` followed by a
non-empty digit run (the parsed step), with arbitrary trailing
characters tolerated; in particular `checkpoint-10-extra` yields step
10 and names not beginning with the pattern are ignored. -/
theorem claim_C4_matching_rules :
    (∀ (dir : String) (entries : List DirEntry) (s : Nat) (p : String),
      (s, p) ∈ collectCheckpoints dir entries ↔
        ∃ e ∈ entries, e.isDir = true ∧ matchCheckpointStep e.name = some s ∧
          p = joinPath dir e.name) ∧
    (∀ (name : String) (s : Nat),
      matchCheckpointStep name = some s ↔
        ∃ ds rest : List Char, ds ≠ [] ∧ (∀ c ∈ ds, c.isDigit = true) ∧
          (∀ c, rest.head? = some c → c.isDigit = false) ∧
          name.data = ("checkpoint-").data ++ ds ++ rest ∧
          s = digitsToNat ds) ∧
    matchCheckpointStep "checkpoint-10-extra" = some 10 ∧
    matchCheckpointStep "other-dir" = none := by
  refine ⟨?_, ?_, by decide, by decide⟩
  · intro dir entries s p
    simp only [collectCheckpoints, List.mem_filterMap]
    constructor
    · rintro ⟨e, he, hfe⟩
      by_cases hd : e.isDir = true
      · rw [if_pos hd] at hfe
        rcases Option.map_eq_some'.mp hfe with ⟨s0, hs0, heq⟩
        have h1 : s0 = s := congrArg Prod.fst heq
        have h2 : joinPath dir e.name = p := congrArg Prod.snd heq
        exact ⟨e, he, hd, h1 ▸ hs0, h2.symm⟩
      · rw [if_neg hd] at hfe
        exact absurd hfe (by simp)
    · rintro ⟨e, he, hd, hm, hp⟩
      subst hp
      refine ⟨e, he, ?_⟩
      rw [if_pos hd, hm]
      rfl
  · intro name s
    simp only [matchCheckpointStep]
    constructor
    · intro h
      by_cases hpre : (("checkpoint-").data.isPrefixOf name.data) = true
      · rw [if_pos hpre] at h
        obtain ⟨t, ht⟩ := List.isPrefixOf_iff_prefix.mp hpre
        have hdrop : name.data.drop (("checkpoint-").data.length) = t := by
          rw [← ht]; exact List.drop_left _ _
        rw [hdrop] at h
        by_cases hemp : ((t.takeWhile Char.isDigit).isEmpty) = true
        · rw [if_pos hemp] at h
          exact absurd h (by simp)
        · rw [if_neg hemp] at h
          refine ⟨t.takeWhile Char.isDigit, t.dropWhile Char.isDigit, ?_, ?_, ?_, ?_, ?_⟩
          · simpa [List.isEmpty_iff] using hemp
          · exact fun c hc => List.mem_takeWhile_imp hc
          · exact dropWhile_head_not Char.isDigit t
          · rw [List.append_assoc, List.takeWhile_append_dropWhile]
            exact ht.symm
          · exact (Option.some.inj h).symm
      · rw [if_neg hpre] at h
        exact absurd h (by simp)
    · rintro ⟨ds, rest, hne, hds, hrest, hdata, hs⟩
      rw [hdata]
      have hpre : (("checkpoint-").data.isPrefixOf
          (("checkpoint-").data ++ ds ++ rest)) = true := by
        rw [List.append_assoc]
        exact List.isPrefixOf_iff_prefix.mpr (List.prefix_append _ _)
      rw [if_pos hpre, List.append_assoc, List.drop_left,
        takeWhile_append_block Char.isDigit ds rest hds hrest]
      have hemp : ds.isEmpty = false := by
        simpa [List.isEmpty_iff] using hne
      rw [hemp]
      simp [hs]

/-- C4 witness: the characterization instantiated at
`checkpoint-10-extra` (which decomposes into the digit run `10` and the
trailer `-extra`), and a contributed pair at a concrete listing. -/
theorem claim_C4_matching_rules_witness :
    (∃ ds rest : List Char, ds ≠ [] ∧ (∀ c ∈ ds, c.isDigit = true) ∧
      (∀ c, rest.head? = some c → c.isDigit = false) ∧
      ("checkpoint-10-extra").data = ("checkpoint-").data ++ ds ++ rest ∧
      10 = digitsToNat ds) ∧
    (10, "d/checkpoint-10-extra") ∈
      collectCheckpoints "d" [⟨"checkpoint-10-extra", true⟩] :=
  ⟨(claim_C4_matching_rules.2.1 "checkpoint-10-extra" 10).mp (by decide),
   (claim_C4_matching_rules.1 "d" [⟨"checkpoint-10-extra", true⟩] 10
       "d/checkpoint-10-extra").mpr
     ⟨⟨"checkpoint-10-extra", true⟩, List.mem_cons_self _ _, rfl, by decide, rfl⟩⟩

end Reinforce
